import Mathlib

/-!
Verification of the vjoy-rs crate: a shallow embedding of its core
(the `VJoyLock` thread-confinement lock of src/lock.rs, the `DeviceId`
slot identifiers, `Interface` slot lookup of src/interface.rs, and the
`DeviceSlot` / `OwnedDeviceSlot` state model of src/device.rs), with
theorems settling the specification claims.

The native vJoy driver (crate `vjoy_sys`) is an external collaborator;
it is modelled as an oracle (`Driver`) giving the response of each
native call, and operations that call into it also return the list of
calls they make (`DriverCall`), so that effect claims can be stated.
Rust machine integers are modelled as `Nat`/`Int` with bounds explicit.
-/

namespace VJoyRs

/-! ## The lock (src/lock.rs)

`VJoyLock` is a zero-sized token; the process-wide state it manages is
the static `LOCKED : AtomicBool` plus the static `REFS : usize`
reference count.  We model that process-wide state as a pair and the
three operations that step it: `VJoyLock::new`, `VJoyLock::clone` and
`VJoyLock::drop`. -/

/-- The process-wide static state of src/lock.rs: the `LOCKED` atomic
flag and the `REFS` live-token count. -/
structure LockState where
  locked : Bool
  refs : Nat
  deriving DecidableEq, Repr

/-- The initial values of the statics: `LOCKED = false`, `REFS = 0`. -/
def LockState.init : LockState := ⟨false, 0⟩

/-- `VJoyLock::new`: succeeds (returning the new state) exactly when the
compare-exchange of `LOCKED` from `false` to `true` succeeds, and then
sets `REFS = 1`. -/
def lockNew (s : LockState) : Option LockState :=
  if s.locked then none else some ⟨true, 1⟩

/-- `VJoyLock::clone`: increments `REFS`.  Only callable while a live
token exists (the `&self` receiver). -/
def lockClone (s : LockState) : LockState :=
  { s with refs := s.refs + 1 }

/-- `VJoyLock::drop`: decrements `REFS`; when the count reaches zero it
stores `false` into `LOCKED`.  Only callable while a live token exists
(the token being dropped). -/
def lockDrop (s : LockState) : LockState :=
  let refs := s.refs - 1
  if refs = 0 then ⟨false, refs⟩ else { s with refs := refs }

/-- One step of the lock's process-wide state: a successful or failed
`new`, or a `clone` or `drop` performed by one of the `refs` live
tokens (hence the `1 ≤ s.refs` preconditions). -/
inductive LockStep : LockState → LockState → Prop
  | new (s s' : LockState) : lockNew s = some s' → LockStep s s'
  | newFail (s : LockState) : lockNew s = none → LockStep s s
  | clone (s : LockState) : 1 ≤ s.refs → LockStep s (lockClone s)
  | drop (s : LockState) : 1 ≤ s.refs → LockStep s (lockDrop s)

/-- A lock state reachable from the initial statics by `new`/`clone`/`drop`. -/
def LockReachable (s : LockState) : Prop :=
  Relation.ReflTransGen LockStep LockState.init s

/-! ## Device identifiers (src/device.rs)

`DeviceId` wraps a `NonZeroU8`; `usize` is 64-bit. -/

/-- `usize::MAX` on the 64-bit targets vJoy supports. -/
def USIZE_MAX : Nat := 2 ^ 64 - 1

/-- `DeviceId(NonZeroU8)`: a nonzero byte identifying a device slot. -/
def DeviceId := { n : Nat // 1 ≤ n ∧ n < 256 }

instance : DecidableEq DeviceId := Subtype.instDecidableEq

/-- `DeviceIdFromIndexError` of src/device.rs. -/
inductive DeviceIdFromIndexError
  | TooLarge
  deriving DecidableEq, Repr

/-- `index.checked_add(1)` on a `usize`: `None` past `usize::MAX`. -/
def usizeCheckedAdd1 (index : Nat) : Option Nat :=
  if index + 1 ≤ USIZE_MAX then some (index + 1) else none

/-- `DeviceId::from_index`: `checked_add(1)`, then `usize -> u8` via
`try_into().ok()` (requires the value below 256), then `NonZeroU8::new`
(requires it nonzero), with `TooLarge` when any step yields nothing. -/
def DeviceId.from_index (index : Nat) :
    Except DeviceIdFromIndexError DeviceId :=
  match usizeCheckedAdd1 index with
  | none => .error .TooLarge
  | some i =>
    if h2 : i < 256 then
      if h1 : 1 ≤ i then .ok ⟨i, h1, h2⟩ else .error .TooLarge
    else .error .TooLarge

/-- `DeviceId::to_raw`: the wrapped byte. -/
def DeviceId.to_raw (d : DeviceId) : Nat := d.val

/-- `DeviceId::to_index`, exactly as the source computes it:
`self.to_raw() as usize + 1`. -/
def DeviceId.to_index (d : DeviceId) : Nat := d.to_raw + 1

/-- The `DeviceId` with raw value 1 (the first slot). -/
def devId1 : DeviceId := ⟨1, by decide⟩

/-- The `DeviceId` with raw value 3. -/
def devId3 : DeviceId := ⟨3, by decide⟩

/-! ## The packed state buffer (`vjoy_sys::JOYSTICK_POSITION`)

The fields the crate touches: the device byte, the sixteen 32-bit axis
values, the four 32-bit button words, and the POV hat fields (zeroed,
pass-through only).  Axis fields hold `i32` values (modelled as `Int`);
button and hat words are bit patterns (modelled as `Nat`). -/

/-- The packed per-slot state buffer pushed to the driver by `apply`. -/
structure JoystickPosition where
  bDevice : Nat
  wAxisX : Int
  wAxisY : Int
  wAxisZ : Int
  wAxisXRot : Int
  wAxisYRot : Int
  wAxisZRot : Int
  wSlider : Int
  wDial : Int
  wAccelerator : Int
  wAileron : Int
  wBrake : Int
  wClutch : Int
  wRudder : Int
  wSteering : Int
  wThrottle : Int
  wWheel : Int
  lButtons : Nat
  lButtonsEx1 : Nat
  lButtonsEx2 : Nat
  lButtonsEx3 : Nat
  bHats : Nat
  bHatsEx1 : Nat
  bHatsEx2 : Nat
  bHatsEx3 : Nat
  deriving DecidableEq, Repr

/-- `std::mem::zeroed::<JOYSTICK_POSITION>()`. -/
def zeroedPosition : JoystickPosition :=
  ⟨0, 0, 0, 0, 0, 0, 0, 0, 0, 0, 0, 0, 0, 0, 0, 0, 0, 0, 0, 0, 0, 0, 0, 0, 0⟩

/-! ## Axes (src/device.rs `Axis`) -/

/-- The closed 16-variant `Axis` enumeration. -/
inductive Axis
  | X
  | Y
  | Z
  | RX
  | RY
  | RZ
  | Slider
  | Dial
  | Accelerator
  | Aileron
  | Brake
  | Clutch
  | Rudder
  | Steering
  | Throttle
  | Wheel
  deriving DecidableEq, Repr

/-- `Axis::usage`: the fixed HID usage code of each axis (the
`vjoy_sys::HID_USAGE_*` constants of the external collaborator). -/
def Axis.usage : Axis → Nat
  | .X => 0x30
  | .Y => 0x31
  | .Z => 0x32
  | .RX => 0x33
  | .RY => 0x34
  | .RZ => 0x35
  | .Slider => 0x36
  | .Dial => 0x37
  | .Accelerator => 0xC4
  | .Aileron => 0xB0
  | .Brake => 0xC5
  | .Clutch => 0xC6
  | .Rudder => 0xBA
  | .Steering => 0xC8
  | .Throttle => 0xBB
  | .Wheel => 0x38

/-! ## The driver oracle (`vjoy_sys`, external collaborator) -/

/-- One native call made into the vJoy driver. -/
inductive DriverCall
  | getAxisMin (id usage : Nat)
  | getAxisMax (id usage : Nat)
  | acquireVJD (id : Nat)
  | relinquishVJD (id : Nat)
  | updateVJD (id : Nat) (state : JoystickPosition)
  deriving DecidableEq, Repr

/-- Whether a native call changes externally visible driver state (as
opposed to a pure query). -/
def DriverCall.isStateChanging : DriverCall → Bool
  | .getAxisMin _ _ => false
  | .getAxisMax _ _ => false
  | .acquireVJD _ => true
  | .relinquishVJD _ => true
  | .updateVJD _ _ => true

/-- Oracle for the driver's responses.  `none` models a native query
reporting failure (returning 0); `some v` models success with `v`
written through the out-pointer. -/
structure Driver where
  /-- `GetvJoyMaxDevices`: the `c_int` slot count, or failure. -/
  maxDevices : Option Int
  /-- `GetVJDAxisMin(id, usage)`: the axis minimum, or failure. -/
  axisMin : Nat → Nat → Option Int
  /-- `GetVJDAxisMax(id, usage)`: the axis maximum, or failure. -/
  axisMax : Nat → Nat → Option Int
  /-- `GetVJDAxisExist(id, usage) != 0`: the dedicated exists query. -/
  axisExist : Nat → Nat → Bool
  /-- `AcquireVJD(id) != 0`: whether acquisition succeeds. -/
  acquireOk : Nat → Bool
  /-- `UpdateVJD(id, state) != 0`: whether the full-state push succeeds. -/
  updateOk : Nat → JoystickPosition → Bool

/-! ## Interface (src/interface.rs) -/

/-- `NumSlotsError` of src/interface.rs. -/
inductive NumSlotsError
  | Failed
  | Invalid
  deriving DecidableEq, Repr

/-- `DeviceSlotError` of src/interface.rs.  (The `Id` variant is never
produced by `device_slot`: a failed id conversion falls through to
`Ok(None)`.) -/
inductive DeviceSlotError
  | Id
  | MaxDevices (e : NumSlotsError)
  deriving DecidableEq, Repr

/-- `Interface::num_slots` (without the `const-slots` feature): calls
`GetvJoyMaxDevices`, then converts the reported `c_int` through
`u8::try_from` (failing with `Invalid` outside `[0, 255]`) and widens
to `usize`. -/
def Interface.num_slots (drv : Driver) : Except NumSlotsError Nat :=
  match drv.maxDevices with
  | none => .error .Failed
  | some n => if 0 ≤ n ∧ n ≤ 255 then .ok n.toNat else .error .Invalid

/-- `DeviceSlot`: a validated slot id plus a clone of the (zero-sized)
`VJoyLock` token. -/
structure DeviceSlot where
  id : DeviceId
  lock : Unit
  deriving DecidableEq

/-- `Interface::device_slot` applied to an id that is already a
`DeviceId` (so its `TryInto` conversion always succeeds): returns
`Ok(Some(slot))` when `num_slots()? >= usize::from(id)` — where
`usize::from(id)` is `id.to_index()` — and `Ok(None)` otherwise;
a `num_slots` failure is propagated by `?`. -/
def Interface.device_slot (drv : Driver) (id : DeviceId) :
    Except DeviceSlotError (Option DeviceSlot) :=
  match Interface.num_slots drv with
  | .error e => .error (.MaxDevices e)
  | .ok n => if DeviceId.to_index id ≤ n then .ok (some ⟨id, ()⟩) else .ok none

/-! ## Device slots (src/device.rs) -/

/-- `AxisRangeError` of src/device.rs. -/
inductive AxisRangeError
  | Invalid
  | MaxFailure
  | MinFailure
  deriving DecidableEq, Repr

/-- `ApplyError` of src/device.rs. -/
inductive ApplyError
  | Failed
  deriving DecidableEq, Repr

/-- `SetAxisError` of src/device.rs. -/
inductive SetAxisError
  | GetRange (e : AxisRangeError)
  | Value
  deriving DecidableEq, Repr

/-- `SetButtonError` of src/device.rs. -/
inductive SetButtonError
  | NoSuchButton
  deriving DecidableEq, Repr

/-- `DeviceSlot::axis_range` (without the `const-range` feature):
queries `GetVJDAxisMin`, failing with `MinFailure`; then
`GetVJDAxisMax`, failing with `MaxFailure`; then requires `min <= max`,
else `Invalid`.  Returns the result (the inclusive range as a pair)
together with the native calls made. -/
def DeviceSlot.axis_range (drv : Driver) (s : DeviceSlot) (axis : Axis) :
    Except AxisRangeError (Int × Int) × List DriverCall :=
  match drv.axisMin s.id.to_raw axis.usage with
  | none => (.error .MinFailure, [.getAxisMin s.id.to_raw axis.usage])
  | some lo =>
    match drv.axisMax s.id.to_raw axis.usage with
    | none =>
      (.error .MaxFailure,
        [.getAxisMin s.id.to_raw axis.usage, .getAxisMax s.id.to_raw axis.usage])
    | some hi =>
      (if lo ≤ hi then .ok (lo, hi) else .error .Invalid,
        [.getAxisMin s.id.to_raw axis.usage, .getAxisMax s.id.to_raw axis.usage])

/-- `DeviceSlot::has_axis`: the source deliberately does not use
`GetVJDAxisExist` (commented out as unreliable) and instead reports
whether the `GetVJDAxisMin` query succeeds. -/
def DeviceSlot.has_axis (drv : Driver) (s : DeviceSlot) (axis : Axis) : Bool :=
  (drv.axisMin s.id.to_raw axis.usage).isSome

/-- `OwnedDeviceSlot`: the acquired slot together with its local packed
state buffer (`RefCell<JOYSTICK_POSITION>`). -/
structure OwnedDeviceSlot where
  slot : DeviceSlot
  state : JoystickPosition
  deriving DecidableEq

/-- `OwnedDeviceSlot::new`: buffer zeroed except `bDevice`, which is
set to the slot's raw id. -/
def OwnedDeviceSlot.new (slot : DeviceSlot) : OwnedDeviceSlot :=
  ⟨slot, { zeroedPosition with bDevice := slot.id.to_raw }⟩

/-- `DeviceSlot::acquire`: calls `AcquireVJD`; on success wraps the
slot in a fresh `OwnedDeviceSlot`, on failure returns the original
`DeviceSlot` itself (no buffer is built). -/
def DeviceSlot.acquire (drv : Driver) (s : DeviceSlot) :
    Except DeviceSlot OwnedDeviceSlot × List DriverCall :=
  let acquired := drv.acquireOk s.id.to_raw
  (if acquired then .ok (OwnedDeviceSlot.new s) else .error s,
    [.acquireVJD s.id.to_raw])

/-! ## Buttons (src/device.rs `get_button` / `set_button`) -/

/-- The all-ones 32-bit pattern, for the `!mask` complement on a
32-bit word. -/
def U32_ONES : Nat := 2 ^ 32 - 1

/-- `(*word & (1 << bit)) != 0`: whether a bit of a button word is set. -/
def testButtonBit (word bit : Nat) : Bool :=
  decide (word &&& (1 <<< bit) ≠ 0)

/-- `let mask = 1 << bit; *word = if value { *word | mask } else
{ *word & !mask }` on a 32-bit button word. -/
def setButtonBit (word bit : Nat) (value : Bool) : Nat :=
  let mask := 1 <<< bit
  if value then word ||| mask else word &&& (U32_ONES ^^^ mask)

/-- `OwnedDeviceSlot::get_button`: selects `(word, bit)` by the ranges
`0..=31`, `32..=63`, `64..=95`, `96..=127` over the four packed button
words (`None` otherwise) and tests the bit. -/
def OwnedDeviceSlot.get_button (s : OwnedDeviceSlot) (index : Nat) :
    Option Bool :=
  if index ≤ 31 then some (testButtonBit s.state.lButtons index)
  else if index ≤ 63 then some (testButtonBit s.state.lButtonsEx1 (index - 32))
  else if index ≤ 95 then some (testButtonBit s.state.lButtonsEx2 (index - 64))
  else if index ≤ 127 then some (testButtonBit s.state.lButtonsEx3 (index - 96))
  else none

/-- `OwnedDeviceSlot::set_button`: same `(word, bit)` selection, with
`Err(NoSuchButton)` for indices past 127, then sets or clears the bit
in place.  Returned as (result, post-state, native calls). -/
def OwnedDeviceSlot.set_button (s : OwnedDeviceSlot) (index : Nat)
    (value : Bool) :
    Except SetButtonError Unit × OwnedDeviceSlot × List DriverCall :=
  if index ≤ 31 then
    (.ok (),
      { s with state :=
        { s.state with lButtons := setButtonBit s.state.lButtons index value } },
      [])
  else if index ≤ 63 then
    (.ok (),
      { s with state :=
        { s.state with
          lButtonsEx1 := setButtonBit s.state.lButtonsEx1 (index - 32) value } },
      [])
  else if index ≤ 95 then
    (.ok (),
      { s with state :=
        { s.state with
          lButtonsEx2 := setButtonBit s.state.lButtonsEx2 (index - 64) value } },
      [])
  else if index ≤ 127 then
    (.ok (),
      { s with state :=
        { s.state with
          lButtonsEx3 := setButtonBit s.state.lButtonsEx3 (index - 96) value } },
      [])
  else (.error .NoSuchButton, s, [])

/-- The four packed button words of a buffer, indexed `0..=3` as
`index / 32` indexes them. -/
def buttonWord (p : JoystickPosition) : Nat → Nat
  | 0 => p.lButtons
  | 1 => p.lButtonsEx1
  | 2 => p.lButtonsEx2
  | _ => p.lButtonsEx3

/-- Replacing the packed button word of a given index `0..=3`. -/
def setWord (p : JoystickPosition) (w v : Nat) : JoystickPosition :=
  match w with
  | 0 => { p with lButtons := v }
  | 1 => { p with lButtonsEx1 := v }
  | 2 => { p with lButtonsEx2 := v }
  | _ => { p with lButtonsEx3 := v }

/-! ## Axis values (src/device.rs) -/

/-- `OwnedDeviceSlot::get_axis_raw`: reads the axis's field of the
packed buffer. -/
def OwnedDeviceSlot.get_axis_raw (s : OwnedDeviceSlot) (axis : Axis) : Int :=
  match axis with
  | .X => s.state.wAxisX
  | .Y => s.state.wAxisY
  | .Z => s.state.wAxisZ
  | .RX => s.state.wAxisXRot
  | .RY => s.state.wAxisYRot
  | .RZ => s.state.wAxisZRot
  | .Slider => s.state.wSlider
  | .Dial => s.state.wDial
  | .Accelerator => s.state.wAccelerator
  | .Aileron => s.state.wAileron
  | .Brake => s.state.wBrake
  | .Clutch => s.state.wClutch
  | .Rudder => s.state.wRudder
  | .Steering => s.state.wSteering
  | .Throttle => s.state.wThrottle
  | .Wheel => s.state.wWheel

/-- `OwnedDeviceSlot::set_axis` (private): writes the axis's field of
the packed buffer. -/
def OwnedDeviceSlot.set_axis (s : OwnedDeviceSlot) (axis : Axis)
    (value : Int) : OwnedDeviceSlot :=
  match axis with
  | .X => { s with state := { s.state with wAxisX := value } }
  | .Y => { s with state := { s.state with wAxisY := value } }
  | .Z => { s with state := { s.state with wAxisZ := value } }
  | .RX => { s with state := { s.state with wAxisXRot := value } }
  | .RY => { s with state := { s.state with wAxisYRot := value } }
  | .RZ => { s with state := { s.state with wAxisZRot := value } }
  | .Slider => { s with state := { s.state with wSlider := value } }
  | .Dial => { s with state := { s.state with wDial := value } }
  | .Accelerator => { s with state := { s.state with wAccelerator := value } }
  | .Aileron => { s with state := { s.state with wAileron := value } }
  | .Brake => { s with state := { s.state with wBrake := value } }
  | .Clutch => { s with state := { s.state with wClutch := value } }
  | .Rudder => { s with state := { s.state with wRudder := value } }
  | .Steering => { s with state := { s.state with wSteering := value } }
  | .Throttle => { s with state := { s.state with wThrottle := value } }
  | .Wheel => { s with state := { s.state with wWheel := value } }

/-- `OwnedDeviceSlot::set_axis_raw`: fetches the range (propagating a
range error via `?` as `GetRange`), rejects values outside it with
`Value`, otherwise writes the field.  Returned as (result, post-state,
native calls). -/
def OwnedDeviceSlot.set_axis_raw (drv : Driver) (s : OwnedDeviceSlot)
    (axis : Axis) (value : Int) :
    Except SetAxisError Unit × OwnedDeviceSlot × List DriverCall :=
  match s.slot.axis_range drv axis with
  | (.error e, tr) => (.error (.GetRange e), s, tr)
  | (.ok (lo, hi), tr) =>
    if lo ≤ value ∧ value ≤ hi then (.ok (), s.set_axis axis value, tr)
    else (.error .Value, s, tr)

/-- `f32::round`: rounding half away from zero (here on an exact
rational). -/
def f32RoundHalfAway (x : ℚ) : Int :=
  if 0 ≤ x then ⌊x + 1 / 2⌋ else -⌊-x + 1 / 2⌋

/-- `OwnedDeviceSlot::set_axis_f32`: rejects values outside
`0.0..=1.0` with `Value` (before any native call), fetches the range
(propagating a range error via `?`), then writes
`lo + f32::round(span as f32 * value) as i32` where `span` is
`hi.wrapping_sub(lo) as u32`.

The `f32` arithmetic is idealized over exact rationals (every `f32` is
a rational and the comparisons against `0.0` and `1.0` are exact, so
the control flow and the native-call trace are faithful; only the
numeric value written — on which no theorem below depends — idealizes
the `f32` rounding of the intermediate products). -/
def OwnedDeviceSlot.set_axis_f32 (drv : Driver) (s : OwnedDeviceSlot)
    (axis : Axis) (value : ℚ) :
    Except SetAxisError Unit × OwnedDeviceSlot × List DriverCall :=
  if ¬(0 ≤ value ∧ value ≤ 1) then (.error .Value, s, [])
  else
    match s.slot.axis_range drv axis with
    | (.error e, tr) => (.error (.GetRange e), s, tr)
    | (.ok (lo, hi), tr) =>
      let span : Int := (hi - lo) % 2 ^ 32
      ((.ok (), (s.set_axis axis (lo + f32RoundHalfAway (span * value))), tr))

/-- `OwnedDeviceSlot::apply`: one `UpdateVJD` call carrying the whole
packed buffer; `Err(Failed)` exactly when the driver reports failure;
the buffer is only read. -/
def OwnedDeviceSlot.apply (drv : Driver) (s : OwnedDeviceSlot) :
    Except ApplyError Unit × OwnedDeviceSlot × List DriverCall :=
  let success := drv.updateOk s.slot.id.to_raw s.state
  (if success then .ok () else .error .Failed, s,
    [.updateVJD s.slot.id.to_raw s.state])

/-! ## Concrete driver oracles used as evidence -/

/-- A driver whose slot-count query reports exactly 1 slot. -/
def drvOneSlot : Driver :=
  { maxDevices := some 1
    axisMin := fun _ _ => none
    axisMax := fun _ _ => none
    axisExist := fun _ _ => false
    acquireOk := fun _ => false
    updateOk := fun _ _ => false }

/-- A driver whose axis-minimum query succeeds (with 0) but whose
axis-maximum query fails. -/
def drvMinOkMaxFail : Driver :=
  { maxDevices := some 16
    axisMin := fun _ _ => some 0
    axisMax := fun _ _ => none
    axisExist := fun _ _ => false
    acquireOk := fun _ => false
    updateOk := fun _ _ => false }

/-- A driver reporting the inconsistent axis range `min = 100,
max = 50`. -/
def drvMin100Max50 : Driver :=
  { maxDevices := some 16
    axisMin := fun _ _ => some 100
    axisMax := fun _ _ => some 50
    axisExist := fun _ _ => true
    acquireOk := fun _ => false
    updateOk := fun _ _ => false }

/-- The `DeviceSlot` for the first slot. -/
def devSlot1 : DeviceSlot := ⟨devId1, ()⟩

end VJoyRs

namespace VJoyRs

/-! ## Theorems -/

/-- Invariant: in every reachable state, `LOCKED` is set iff at least
one token is live. -/
lemma lockReachable_inv {s : LockState} (h : LockReachable s) :
    s.locked = true ↔ 1 ≤ s.refs := by
  induction h with
  | refl => simp [LockState.init]
  | tail _ hstep ih =>
    cases hstep with
    | new s' hnew =>
      unfold lockNew at hnew
      split at hnew
      · exact absurd hnew (by simp)
      · cases hnew; simp
    | newFail hnew => exact ih
    | clone hlive => simp [lockClone, ih.mpr hlive]
    | drop hlive =>
      unfold lockDrop
      simp only
      split
      · next h0 => simp [h0]
      · next h0 =>
        have h1 : 1 ≤ _ - 1 := Nat.one_le_iff_ne_zero.mpr h0
        simp [ih.mpr hlive, h1]

/-- C1: Modeling the lock's process-wide state as the pair (locked flag,
live-token count) stepped only by `VJoyLock::new`, `clone` and `drop`:
`new()` returns `Some` exactly when the locked flag was false, and then
sets the count to 1; `clone` increments the count; `drop` decrements it
and clears the locked flag exactly when the count reaches 0.  In every
reachable state the locked flag is set iff at least one token is live,
`new()` returns `None` whenever any token is live, and after the last
live token is dropped a subsequent `new()` succeeds again. -/
theorem c1_lock_state_machine (s : LockState) (h : LockReachable s) :
    (s.locked = true ↔ 1 ≤ s.refs) ∧
    ((lockNew s).isSome ↔ s.locked = false) ∧
    (∀ t, lockNew s = some t → t = ⟨true, 1⟩) ∧
    ((lockClone s).refs = s.refs + 1) ∧
    (1 ≤ s.refs →
      (lockDrop s).refs = s.refs - 1 ∧
      ((lockDrop s).locked = false ↔ s.refs - 1 = 0)) ∧
    (1 ≤ s.refs → lockNew s = none) ∧
    (s.refs = 1 → lockNew (lockDrop s) = some ⟨true, 1⟩) := by
  have inv := lockReachable_inv h
  refine ⟨inv, ?_, ?_, rfl, ?_, ?_, ?_⟩
  · unfold lockNew
    cases hl : s.locked <;> simp [hl]
  · unfold lockNew
    intro t ht
    split at ht
    · exact absurd ht (by simp)
    · cases ht; rfl
  · intro h1
    have hl : s.locked = true := inv.mpr h1
    unfold lockDrop
    simp only
    refine ⟨by split <;> rfl, ?_⟩
    split
    · next h0 => simp [h0]
    · next h0 => simp [hl, h0]
  · intro h1
    have hl : s.locked = true := inv.mpr h1
    unfold lockNew
    simp [hl]
  · intro h1
    have : lockDrop s = ⟨false, 0⟩ := by
      unfold lockDrop
      simp [h1]
    rw [this]
    rfl

/-- Witness for C1 at the concrete reachable state `(locked, 1 token)`. -/
theorem c1_lock_state_machine_witness :
    LockReachable ⟨true, 1⟩ ∧ lockNew ⟨true, 1⟩ = none ∧
      lockNew (lockDrop ⟨true, 1⟩) = some ⟨true, 1⟩ := by
  have hr : LockReachable ⟨true, 1⟩ :=
    Relation.ReflTransGen.single (LockStep.new _ _ rfl)
  have h := c1_lock_state_machine ⟨true, 1⟩ hr
  exact ⟨hr, h.2.2.2.2.2.1 (by decide), h.2.2.2.2.2.2 rfl⟩

/-- C2: the claim asks `to_index` to be the exact inverse of
`from_index` (`d.to_index() == i`); the code computes `to_raw + 1`, so
index 0 produces the id with raw value 1 whose `to_index` is 2 (not 0),
and round-tripping it through `from_index` lands on raw value 3. -/
theorem c2_to_index_code_bug :
    DeviceId.from_index 0 = Except.ok devId1 ∧
    DeviceId.to_raw devId1 = 0 + 1 ∧
    DeviceId.to_index devId1 = 2 ∧
    DeviceId.from_index (DeviceId.to_index devId1) = Except.ok devId3 := by
  refine ⟨rfl, rfl, rfl, rfl⟩

/-- C3: the claim (and spec) ask `device_slot(id)` to return
`Ok(Some(..))` for every raw id in `[1, n]`; because
`usize::from(DeviceId)` is `to_index() = raw + 1`, the guard
`num_slots()? >= id.into()` rejects `raw = n`: with the driver
reporting exactly 1 slot, the id with raw value 1 yields `Ok(None)`. -/
theorem c3_device_slot_code_bug :
    Interface.num_slots drvOneSlot = Except.ok 1 ∧
    Interface.device_slot drvOneSlot devId1 = Except.ok none := by
  exact ⟨rfl, rfl⟩

/-- C4: `DeviceSlot::acquire` returns `Err` containing the original
`DeviceSlot` unchanged when the driver's acquire call fails — no
`OwnedDeviceSlot` (hence no local state buffer) is built — and on
success returns `Ok` of an `OwnedDeviceSlot` wrapping that very slot
with a zeroed buffer tagged by its id. -/
theorem c4_acquire_preserves_slot (drv : Driver) (s : DeviceSlot) :
    (drv.acquireOk s.id.to_raw = false → (s.acquire drv).1 = .error s) ∧
    (drv.acquireOk s.id.to_raw = true →
      (s.acquire drv).1 =
        .ok ⟨s, { zeroedPosition with bDevice := s.id.to_raw }⟩) := by
  constructor <;> intro h <;>
    simp [DeviceSlot.acquire, OwnedDeviceSlot.new, h]

/-- Witness for C4: with a driver that refuses acquisition, slot 1
comes back unchanged in the `Err` branch. -/
theorem c4_acquire_preserves_slot_witness :
    drvOneSlot.acquireOk devSlot1.id.to_raw = false ∧
    (devSlot1.acquire drvOneSlot).1 = .error devSlot1 :=
  ⟨rfl, (c4_acquire_preserves_slot drvOneSlot devSlot1).1 rfl⟩

/-- C9: `axis_range` fails with `MinFailure` when the driver's
axis-minimum query fails, with `MaxFailure` when the minimum succeeds
but the maximum fails, with `Invalid` when both succeed but
`min > max`, and otherwise returns exactly `Ok(min..=max)`. -/
theorem c9_axis_range_errors (drv : Driver) (s : DeviceSlot) (axis : Axis) :
    (drv.axisMin s.id.to_raw axis.usage = none →
      (s.axis_range drv axis).1 = .error .MinFailure) ∧
    (∀ lo, drv.axisMin s.id.to_raw axis.usage = some lo →
      drv.axisMax s.id.to_raw axis.usage = none →
      (s.axis_range drv axis).1 = .error .MaxFailure) ∧
    (∀ lo hi, drv.axisMin s.id.to_raw axis.usage = some lo →
      drv.axisMax s.id.to_raw axis.usage = some hi → lo ≤ hi →
      (s.axis_range drv axis).1 = .ok (lo, hi)) ∧
    (∀ lo hi, drv.axisMin s.id.to_raw axis.usage = some lo →
      drv.axisMax s.id.to_raw axis.usage = some hi → hi < lo →
      (s.axis_range drv axis).1 = .error .Invalid) := by
  refine ⟨?_, ?_, ?_, ?_⟩
  · intro hmin
    simp [DeviceSlot.axis_range, hmin]
  · intro lo hmin hmax
    simp [DeviceSlot.axis_range, hmin, hmax]
  · intro lo hi hmin hmax hle
    simp [DeviceSlot.axis_range, hmin, hmax, hle]
  · intro lo hi hmin hmax hlt
    simp [DeviceSlot.axis_range, hmin, hmax, not_le.mpr hlt]

/-- Witness for C9: the spec's simulated backend `min = 100, max = 50`
yields the `Invalid` range-inconsistency error. -/
theorem c9_axis_range_errors_witness :
    drvMin100Max50.axisMin devSlot1.id.to_raw Axis.X.usage = some 100 ∧
    drvMin100Max50.axisMax devSlot1.id.to_raw Axis.X.usage = some 50 ∧
    (50 : Int) < 100 ∧
    (devSlot1.axis_range drvMin100Max50 Axis.X).1 = .error .Invalid :=
  ⟨rfl, rfl, by decide,
    (c9_axis_range_errors drvMin100Max50 devSlot1 Axis.X).2.2.2 100 50 rfl rfl
      (by decide)⟩

/-- C10: `has_axis` is true exactly when the driver's axis-minimum
query succeeds; it is insensitive to the dedicated exists query and to
the axis-maximum query (it makes neither); and consequently there are
driver responses — maximum failing, or `min > max` — where `has_axis`
is true while `axis_range` errors. -/
theorem c10_has_axis_from_min_query (drv : Driver) (s : DeviceSlot)
    (axis : Axis) :
    (s.has_axis drv axis = (drv.axisMin s.id.to_raw axis.usage).isSome) ∧
    (∀ dExist dMax,
      DeviceSlot.has_axis { drv with axisExist := dExist, axisMax := dMax }
          s axis =
        s.has_axis drv axis) ∧
    (s.has_axis drvMinOkMaxFail axis = true ∧
      (s.axis_range drvMinOkMaxFail axis).1 = .error .MaxFailure) ∧
    (s.has_axis drvMin100Max50 axis = true ∧
      (s.axis_range drvMin100Max50 axis).1 = .error .Invalid) := by
  refine ⟨rfl, fun _ _ => rfl, ⟨rfl, rfl⟩, ⟨rfl, ?_⟩⟩
  simp [DeviceSlot.axis_range, drvMin100Max50]

/-- Every native call `axis_range` makes is a pure query. -/
lemma axis_range_trace_queries (drv : Driver) (s : DeviceSlot) (axis : Axis) :
    ((s.axis_range drv axis).2).all (fun c => !c.isStateChanging) = true := by
  rcases h1 : drv.axisMin s.id.to_raw axis.usage with _ | lo <;>
    rcases h2 : drv.axisMax s.id.to_raw axis.usage with _ | hi <;>
      simp [DeviceSlot.axis_range, h1, h2, DriverCall.isStateChanging]

/-- C8: `set_axis_f32`, `set_axis_raw` and `set_button` make no
state-changing driver call (their traces are pure queries, or empty for
`set_button`); each `apply()` invocation makes exactly one push call,
`UpdateVJD`, carrying the entire packed buffer — from any local state,
hence regardless of how many `set_*` calls preceded it — that call is
state-changing, `apply` errs exactly when it reports failure, and
`apply` leaves the local buffer untouched. -/
theorem c8_apply_single_push (drv : Driver) (s : OwnedDeviceSlot)
    (axis : Axis) (q : ℚ) (v : Int) (i : Nat) (b : Bool) :
    ((s.set_axis_f32 drv axis q).2.2.all (fun c => !c.isStateChanging) =
      true) ∧
    ((s.set_axis_raw drv axis v).2.2.all (fun c => !c.isStateChanging) =
      true) ∧
    ((s.set_button i b).2.2 = ([] : List DriverCall)) ∧
    ((s.apply drv).2.2 = [DriverCall.updateVJD s.slot.id.to_raw s.state]) ∧
    (DriverCall.isStateChanging
      (.updateVJD s.slot.id.to_raw s.state) = true) ∧
    ((s.apply drv).1 = .ok () ↔
      drv.updateOk s.slot.id.to_raw s.state = true) ∧
    ((s.apply drv).1 = .error .Failed ↔
      drv.updateOk s.slot.id.to_raw s.state = false) ∧
    ((s.apply drv).2.1 = s) := by
  have htr := axis_range_trace_queries drv s.slot axis
  refine ⟨?_, ?_, ?_, rfl, rfl, ?_, ?_, rfl⟩
  · unfold OwnedDeviceSlot.set_axis_f32
    split
    · simp
    · rcases hr : s.slot.axis_range drv axis with ⟨res, tr⟩
      rw [hr] at htr
      rcases res with e | p
      · simpa using htr
      · rcases p with ⟨lo, hi⟩
        simpa using htr
  · unfold OwnedDeviceSlot.set_axis_raw
    rcases hr : s.slot.axis_range drv axis with ⟨res, tr⟩
    rw [hr] at htr
    rcases res with e | p
    · simpa using htr
    · rcases p with ⟨lo, hi⟩
      dsimp only
      split <;> simpa using htr
  · unfold OwnedDeviceSlot.set_button
    split_ifs <;> rfl
  · rcases h : drv.updateOk s.slot.id.to_raw s.state <;>
      simp [OwnedDeviceSlot.apply, h]
  · rcases h : drv.updateOk s.slot.id.to_raw s.state <;>
      simp [OwnedDeviceSlot.apply, h]

/-- The `(*word & (1 << bit)) != 0` test reads exactly the bit. -/
lemma testButtonBit_eq_testBit (w b : Nat) :
    testButtonBit w b = w.testBit b := by
  unfold testButtonBit
  rw [Nat.one_shiftLeft]
  cases h : w.testBit b
  · have hz : w &&& 2 ^ b = 0 := by
      refine Nat.eq_of_testBit_eq fun i => ?_
      rcases eq_or_ne b i with rfl | hne
      · simp [h]
      · simp [Nat.testBit_two_pow, hne]
    simp [hz]
  · have ht : (w &&& 2 ^ b).testBit b = true := by
      simp [h, Nat.testBit_two_pow]
    have hne : w &&& 2 ^ b ≠ 0 := by
      intro h0
      rw [h0] at ht
      simp at ht
    simp [hne]

/-- The all-ones 32-bit pattern has exactly its low 32 bits set. -/
lemma testBit_u32_ones (k : Nat) : U32_ONES.testBit k = decide (k < 32) :=
  Nat.testBit_two_pow_sub_one 32 k

/-- Setting or clearing a bit of a 32-bit word puts that value at the
touched bit. -/
lemma testBit_setButtonBit_self (w b : Nat) (hb : b < 32) (v : Bool) :
    (setButtonBit w b v).testBit b = v := by
  unfold setButtonBit
  cases v with
  | true => simp [Nat.one_shiftLeft, Nat.testBit_two_pow]
  | false =>
    simp [Nat.one_shiftLeft, Nat.testBit_two_pow, testBit_u32_ones, hb]

/-- Setting or clearing a bit of a 32-bit word leaves every other bit
of the word alone. -/
lemma testBit_setButtonBit_of_ne (w b j : Nat) (hj : j < 32) (hne : j ≠ b)
    (v : Bool) : (setButtonBit w b v).testBit j = w.testBit j := by
  unfold setButtonBit
  have hbj : b ≠ j := Ne.symm hne
  cases v with
  | true => simp [Nat.one_shiftLeft, Nat.testBit_two_pow, hbj]
  | false =>
    simp [Nat.one_shiftLeft, Nat.testBit_two_pow, testBit_u32_ones, hbj, hj]

/-- `buttonWord` after `setWord`: the replaced word reads the new
value, the other three are untouched. -/
lemma buttonWord_setWord (p : JoystickPosition) (w v w' : Nat)
    (hw : w < 4) (hw' : w' < 4) :
    buttonWord (setWord p w v) w' = if w' = w then v else buttonWord p w' := by
  rcases w with _ | _ | _ | _ | w <;> rcases w' with _ | _ | _ | _ | w' <;>
    simp [setWord, buttonWord] <;> omega

/-- `get_button` on an in-range index reads bit `index % 32` of word
`index / 32`. -/
lemma get_button_eq (s : OwnedDeviceSlot) (j : Nat) (hj : j < 128) :
    s.get_button j =
      some ((buttonWord s.state (j / 32)).testBit (j % 32)) := by
  unfold OwnedDeviceSlot.get_button
  by_cases h0 : j ≤ 31
  · rw [if_pos h0]
    have e1 : j / 32 = 0 := by omega
    have e2 : j % 32 = j := by omega
    rw [e1, e2, testButtonBit_eq_testBit]
    rfl
  · by_cases h1 : j ≤ 63
    · rw [if_neg h0, if_pos h1]
      have e1 : j / 32 = 1 := by omega
      have e2 : j % 32 = j - 32 := by omega
      rw [e1, e2, testButtonBit_eq_testBit]
      rfl
    · by_cases h2 : j ≤ 95
      · rw [if_neg h0, if_neg h1, if_pos h2]
        have e1 : j / 32 = 2 := by omega
        have e2 : j % 32 = j - 64 := by omega
        rw [e1, e2, testButtonBit_eq_testBit]
        rfl
      · rw [if_neg h0, if_neg h1, if_neg h2, if_pos (by omega)]
        have e1 : j / 32 = 3 := by omega
        have e2 : j % 32 = j - 96 := by omega
        rw [e1, e2, testButtonBit_eq_testBit]
        rfl

/-- `get_button` past index 127 reads nothing. -/
lemma get_button_none (s : OwnedDeviceSlot) (j : Nat) (hj : 128 ≤ j) :
    s.get_button j = none := by
  unfold OwnedDeviceSlot.get_button
  rw [if_neg (by omega), if_neg (by omega), if_neg (by omega),
    if_neg (by omega)]

/-- `set_button` on an in-range index succeeds and updates bit
`index % 32` of word `index / 32`, making no native call. -/
lemma set_button_eq (s : OwnedDeviceSlot) (i : Nat) (hi : i < 128)
    (b : Bool) :
    (s.set_button i b).1 = .ok () ∧
    (s.set_button i b).2.1.slot = s.slot ∧
    (s.set_button i b).2.1.state =
      setWord s.state (i / 32)
        (setButtonBit (buttonWord s.state (i / 32)) (i % 32) b) ∧
    (s.set_button i b).2.2 = [] := by
  unfold OwnedDeviceSlot.set_button
  by_cases h0 : i ≤ 31
  · rw [if_pos h0]
    have e1 : i / 32 = 0 := by omega
    have e2 : i % 32 = i := by omega
    rw [e1, e2]
    exact ⟨rfl, rfl, rfl, rfl⟩
  · by_cases h1 : i ≤ 63
    · rw [if_neg h0, if_pos h1]
      have e1 : i / 32 = 1 := by omega
      have e2 : i % 32 = i - 32 := by omega
      rw [e1, e2]
      exact ⟨rfl, rfl, rfl, rfl⟩
    · by_cases h2 : i ≤ 95
      · rw [if_neg h0, if_neg h1, if_pos h2]
        have e1 : i / 32 = 2 := by omega
        have e2 : i % 32 = i - 64 := by omega
        rw [e1, e2]
        exact ⟨rfl, rfl, rfl, rfl⟩
      · rw [if_neg h0, if_neg h1, if_neg h2, if_pos (by omega)]
        have e1 : i / 32 = 3 := by omega
        have e2 : i % 32 = i - 96 := by omega
        rw [e1, e2]
        exact ⟨rfl, rfl, rfl, rfl⟩

/-- C5: for an index in `[0, 128)`, `set_button(i, b)` succeeds and
afterwards `get_button(i) = Some(b)` while `get_button(j)` is unchanged
for every other `j` (across all four 32-bit words); the touched bit is
bit `i % 32` of word `i / 32` and every other bit of the four words is
untouched; `set_button` past 127 fails with `NoSuchButton` leaving the
state unchanged, and `get_button` past 127 reads `None`. -/
theorem c5_buttons (s : OwnedDeviceSlot) (i : Nat) (b : Bool) :
    (i < 128 →
      (s.set_button i b).1 = .ok () ∧
      (s.set_button i b).2.1.get_button i = some b ∧
      (∀ j, j ≠ i → (s.set_button i b).2.1.get_button j = s.get_button j) ∧
      (∀ w k, w < 4 → k < 32 →
        (buttonWord (s.set_button i b).2.1.state w).testBit k =
          if w = i / 32 ∧ k = i % 32 then b
          else (buttonWord s.state w).testBit k)) ∧
    (128 ≤ i →
      (s.set_button i b).1 = .error .NoSuchButton ∧
      (s.set_button i b).2.1 = s ∧
      s.get_button i = none) := by
  constructor
  · intro hi
    obtain ⟨hres, hslot, hstate, htr⟩ := set_button_eq s i hi b
    have hd : i / 32 < 4 := by omega
    have hm : i % 32 < 32 := by omega
    refine ⟨hres, ?_, ?_, ?_⟩
    · rw [get_button_eq _ i hi, hstate, buttonWord_setWord _ _ _ _ hd hd,
        if_pos rfl, testBit_setButtonBit_self _ _ hm _]
    · intro j hj
      by_cases hj128 : j < 128
      · rw [get_button_eq _ j hj128, get_button_eq s j hj128, hstate,
          buttonWord_setWord _ _ _ _ hd (by omega)]
        by_cases hw : j / 32 = i / 32
        · rw [if_pos hw, hw]
          have hbne : j % 32 ≠ i % 32 := by omega
          rw [testBit_setButtonBit_of_ne _ _ _ (by omega) hbne _]
        · rw [if_neg hw]
      · have hj' : 128 ≤ j := by omega
        rw [get_button_none _ j hj', get_button_none s j hj']
    · intro w k hw hk
      rw [hstate, buttonWord_setWord _ _ _ _ hd hw]
      by_cases hww : w = i / 32
      · subst hww
        rw [if_pos rfl]
        by_cases hkk : k = i % 32
        · subst hkk
          rw [testBit_setButtonBit_self _ _ hm _, if_pos ⟨rfl, rfl⟩]
        · rw [testBit_setButtonBit_of_ne _ _ _ hk hkk _,
            if_neg (fun hcont => hkk hcont.2)]
      · rw [if_neg hww, if_neg (fun hcont => hww hcont.1)]
  · intro hi
    have e : s.set_button i b = (.error .NoSuchButton, s, []) := by
      unfold OwnedDeviceSlot.set_button
      rw [if_neg (by omega), if_neg (by omega), if_neg (by omega),
        if_neg (by omega)]
    exact ⟨by rw [e], by rw [e], get_button_none s i hi⟩

/-- Witness for C5 at button 40 (bit 8 of the second word) of a fresh
slot-1 buffer. -/
theorem c5_buttons_witness :
    (40 : Nat) < 128 ∧
    ((OwnedDeviceSlot.new devSlot1).set_button 40 true).2.1.get_button 40 =
      some true :=
  ⟨by decide,
    ((c5_buttons (OwnedDeviceSlot.new devSlot1) 40 true).1 (by decide)).2.1⟩

end VJoyRs
